import Mathlib

/-!
Shallow embedding of the MTA train-updates LCD application's UI core
(src/app.py `main` event loop and src/mta_app/lcd_ui.py rendering helpers).

Python machine integers are modelled as `Int`; Python `%` on a positive
modulus agrees with `Int.emod`.  The `station_scroll` dict is modelled as an
association list with first-match lookup and in-place replacement, matching
dict semantics for get/set.  Collaborator reads performed during one event
dispatch (the monitor's arrivals count, the result of `connect_wifi`, the
freshly reloaded settings) are packaged into an `Env` record.
-/

/-- UI states of the application, mirroring the STATE_* constants in app.py. -/
inductive UState where
  | main
  | settingsRoot
  | ipInfo
  | wifiList
  | wifiPassEntry
  | webConfig
  | bufferEdit
  | about
deriving DecidableEq

/-- Button events delivered by the Buttons collaborator (already debounced);
`noEvent` models an iteration where `buttons.pop_event()` returned nothing. -/
inductive Event where
  | left
  | right
  | up
  | down
  | select
  | selectLong
  | noEvent
deriving DecidableEq

/-- The mutable UI variables of app.py `main()`, gathered into one record. -/
structure AppState where
  state : UState
  page : Int
  station_count : Int
  settings_sel : Int
  wifi_supported : Bool
  wifi_ssids : List String
  wifi_sel : Int
  wifi_active : String
  wifi_target : String
  wifi_pass : List Char
  wifi_cursor : Int
  charset_idx : Int
  wifi_scanning : Bool
  wifi_scan_status : String
  station_scroll : List (Int × Int)
  favorite_station_index : Option Int
  leave_buffer_min : Int
deriving DecidableEq

/-- Collaborator inputs read during one event dispatch: the monitor snapshot's
arrivals count per station index, the result of `connect_wifi`, and the values
obtained by `load_settings` in the web-config reload branch. -/
structure Env where
  arrivals_count : Int → Int
  connect_ok : Bool
  reload_station_count : Int
  reload_favorite : Option Int
  reload_buffer : Int

/-- The ordered password character set from app.py line 112. -/
def charset : List Char :=
  " abcdefghijklmnopqrstuvwxyzABCDEFGHIJKLMNOPQRSTUVWXYZ0123456789!@#$%^&*()-_=+[]\x7b\x7d.,:?/".toList

/-- Length of the password character set as an integer. -/
def charsetLen : Int := (charset.length : Int)

/-- Lookup in the station_scroll dict with default 0, as in
`station_scroll.get(st_idx, 0)`. -/
def dictGet (d : List (Int × Int)) (k : Int) : Int :=
  match d with
  | [] => 0
  | (k0, v) :: rest => if k0 = k then v else dictGet rest k

/-- Assignment `station_scroll[st_idx] = v`, replacing the entry if present. -/
def dictSet (d : List (Int × Int)) (k v : Int) : List (Int × Int) :=
  match d with
  | [] => [(k, v)]
  | (k0, v0) :: rest => if k0 = k then (k, v) :: rest else (k0, v0) :: dictSet rest k v

/-- Synchronous effect of `start_wifi_scan` (app.py 120-140): mark scanning and
set the status, unless a scan is already running or nmcli is missing. -/
def startWifiScan (s : AppState) : AppState :=
  if s.wifi_scanning ∨ s.wifi_supported = false then s
  else { s with wifi_scanning := true, wifi_scan_status := "Scanning..." }

/-- The `last_page = station_count + 1` relation maintained in app.py. -/
def AppState.lastPage (s : AppState) : Int :=
  s.station_count + 1

/-- Charset index advance on UP (app.py 455). -/
def cycleUp (i : Int) : Int :=
  (i + 1) % charsetLen

/-- Charset index retreat on DOWN (app.py 457). -/
def cycleDown (i : Int) : Int :=
  (i - 1) % charsetLen

/-- MAIN-state event dispatch (app.py 278-324). -/
def stepMain (env : Env) (k : Event) (s : AppState) : AppState × Bool :=
  match k with
  | .left => ({ s with page := if s.page = 0 then s.lastPage else s.page - 1 }, true)
  | .right => ({ s with page := if s.page = s.lastPage then 0 else s.page + 1 }, true)
  | .select =>
      if s.page = s.lastPage then ({ s with state := .settingsRoot }, true)
      else (s, false)
  | .up =>
      if 1 ≤ s.page ∧ s.page ≤ s.station_count then
        let st_idx := s.page - 1
        let off := dictGet s.station_scroll st_idx
        ({ s with station_scroll := dictSet s.station_scroll st_idx (max 0 (off - 1)) }, true)
      else (s, false)
  | .down =>
      if 1 ≤ s.page ∧ s.page ≤ s.station_count then
        let st_idx := s.page - 1
        let max_off := max 0 (env.arrivals_count st_idx - 2)
        let off := dictGet s.station_scroll st_idx
        ({ s with station_scroll := dictSet s.station_scroll st_idx (min max_off (off + 1)) }, true)
      else (s, false)
  | .selectLong =>
      if 1 ≤ s.page ∧ s.page ≤ s.station_count then
        ({ s with favorite_station_index := some (s.page - 1) }, true)
      else (s, false)
  | .noEvent => (s, false)

/-- SETTINGS_ROOT event dispatch (app.py 327-354). -/
def stepSettings (k : Event) (s : AppState) : AppState × Bool :=
  match k with
  | .up => ({ s with settings_sel := (s.settings_sel - 1) % 5 }, true)
  | .down => ({ s with settings_sel := (s.settings_sel + 1) % 5 }, true)
  | .left => ({ s with state := .main }, true)
  | .select =>
      if s.settings_sel = 0 then ({ s with state := .ipInfo }, true)
      else if s.settings_sel = 1 then
        let s1 : AppState :=
          { s with state := UState.wifiList, wifi_sel := 0, wifi_ssids := [],
                   wifi_active := "",
                   wifi_scan_status :=
                     if s.wifi_supported = false then "nmcli missing" else "Scanning..." }
        (if s.wifi_supported then startWifiScan s1 else s1, true)
      else if s.settings_sel = 2 then ({ s with state := .webConfig }, true)
      else if s.settings_sel = 3 then ({ s with state := .bufferEdit }, true)
      else if s.settings_sel = 4 then ({ s with state := .about }, true)
      else (s, true)
  | _ => (s, false)

/-- IP-page event dispatch (app.py 357-360). -/
def stepIp (k : Event) (s : AppState) : AppState × Bool :=
  match k with
  | .left => ({ s with state := .settingsRoot }, true)
  | _ => (s, false)

/-- Leave-buffer page event dispatch (app.py 363-381). -/
def stepBufferEdit (k : Event) (s : AppState) : AppState × Bool :=
  match k with
  | .up => ({ s with leave_buffer_min := min 60 (s.leave_buffer_min + 1) }, true)
  | .down => ({ s with leave_buffer_min := max 0 (s.leave_buffer_min - 1) }, true)
  | .left => ({ s with state := .settingsRoot }, true)
  | .select => ({ s with state := .settingsRoot }, true)
  | _ => (s, false)

/-- About-page event dispatch (app.py 384-387). -/
def stepAbout (k : Event) (s : AppState) : AppState × Bool :=
  match k with
  | .left => ({ s with state := .settingsRoot }, true)
  | _ => (s, false)

/-- Web-config page event dispatch; SELECT reloads settings.json, refreshes the
runtime values and clamps the page (app.py 390-412). -/
def stepWeb (env : Env) (k : Event) (s : AppState) : AppState × Bool :=
  match k with
  | .left => ({ s with state := .settingsRoot }, true)
  | .select =>
      let n := env.reload_station_count
      ({ s with favorite_station_index := env.reload_favorite,
                leave_buffer_min := env.reload_buffer,
                station_count := n,
                page := min s.page (n + 1) }, true)
  | _ => (s, false)

/-- Wi-Fi list page event dispatch (app.py 415-442). -/
def stepWifiList (k : Event) (s : AppState) : AppState × Bool :=
  match k with
  | .left => ({ s with state := .settingsRoot }, true)
  | .up =>
      if s.wifi_ssids = [] then (s, false)
      else ({ s with wifi_sel := max 0 (s.wifi_sel - 1) }, true)
  | .down =>
      if s.wifi_ssids = [] then (s, false)
      else ({ s with wifi_sel := min ((s.wifi_ssids.length : Int) - 1) (s.wifi_sel + 1) }, true)
  | .select =>
      if s.wifi_supported = false then ({ s with state := .settingsRoot }, true)
      else if s.wifi_scanning then (s, false)
      else if s.wifi_ssids = [] then (startWifiScan s, true)
      else
        ({ s with wifi_target := s.wifi_ssids.getD s.wifi_sel.toNat "",
                  wifi_pass := List.replicate 16 ' ',
                  wifi_cursor := 0,
                  charset_idx := 0,
                  state := .wifiPassEntry }, true)
  | _ => (s, false)

/-- Wi-Fi password entry event dispatch (app.py 445-470). -/
def stepWifiPassEntry (env : Env) (k : Event) (s : AppState) : AppState × Bool :=
  match k with
  | .left => ({ s with state := .wifiList }, true)
  | .right => ({ s with wifi_cursor := min 15 (s.wifi_cursor + 1), charset_idx := 0 }, true)
  | .up =>
      let i := cycleUp s.charset_idx
      ({ s with charset_idx := i,
                wifi_pass := s.wifi_pass.set s.wifi_cursor.toNat (charset.getD i.toNat ' ') }, true)
  | .down =>
      let i := cycleDown s.charset_idx
      ({ s with charset_idx := i,
                wifi_pass := s.wifi_pass.set s.wifi_cursor.toNat (charset.getD i.toNat ' ') }, true)
  | .select =>
      (startWifiScan
        { s with state := UState.wifiList,
                 wifi_scan_status := if env.connect_ok then "Connected" else "Failed" }, true)
  | _ => (s, false)

/-- One event dispatch of the app.py main loop:
`apply(state, event) -> (state, changed)`. -/
def step (env : Env) (k : Event) (s : AppState) : AppState × Bool :=
  match s.state with
  | .main => stepMain env k s
  | .settingsRoot => stepSettings k s
  | .ipInfo => stepIp k s
  | .bufferEdit => stepBufferEdit k s
  | .about => stepAbout k s
  | .webConfig => stepWeb env k s
  | .wifiList => stepWifiList k s
  | .wifiPassEntry => stepWifiPassEntry env k s

/-- Fold a sequence of events through `step`, keeping only the state. -/
def runEvents (env : Env) (evs : List Event) (s : AppState) : AppState :=
  evs.foldl (fun st e => (step env e st).1) s

/-- Offset clamp applied in `render_now` (app.py 215-219) when the arrivals list
has refreshed underneath the stored offset. -/
def clampScroll (arrivalsCount off : Int) : Int :=
  let max_off := max 0 (arrivalsCount - 2)
  if off > max_off then max_off else off

/-- Invariant of claim C5: every stored station scroll offset lies in
`[0, max 0 (arrivalsCount - 2)]`. -/
def scrollInv (env : Env) (s : AppState) : Prop :=
  ∀ idx : Int, 0 ≤ dictGet s.station_scroll idx ∧
    dictGet s.station_scroll idx ≤ max 0 (env.arrivals_count idx - 2)

/-- State-dependent minimum render period (app.py 472-476): 0.12 s on a station
page, 0.5 s on the mostly static pages. -/
def minRenderPeriod (st : UState) (page last_page : Int) : ℚ :=
  if st = UState.main ∧ 0 < page ∧ page < last_page then 12/100 else 1/2

/-- Render decision of the scheduler (app.py 472-484). -/
def shouldRender (state_changed : Bool) (st : UState) (page last_page : Int)
    (wifi_scanning : Bool) (now_t last_render_t : ℚ) : Bool :=
  let periodic_due : Bool :=
    decide (now_t - last_render_t ≥ minRenderPeriod st page last_page)
  let periodic_due :=
    if st = UState.wifiList ∧ wifi_scanning then true else periodic_due
  state_changed || periodic_due

/-- Two-digit zero-padded decimal rendering, as Python format `{n:02d}`. -/
def fmt02 (n : Int) : String :=
  let s := toString n
  if s.length < 2 then "0" ++ s else s

/-- First element of the list that is ≥ b, in list order — the for-loop with
break over the sorted ETAs in `render_now` (app.py 167-170). -/
def firstGe (b : Int) : List Int → Option Int
  | [] => none
  | x :: xs => if b ≤ x then some x else firstGe b xs

/-- Sorted non-null ETAs of the favorite station's snapshot (app.py 159). -/
def sortedEtas (arrivals : List (String × Option Int)) : List Int :=
  (arrivals.filterMap Prod.snd).insertionSort (· ≤ ·)

/-- The ETA chosen by `render_now` (app.py 164-174): the first sorted ETA that
is ≥ the buffer, falling back to the soonest ETA when none qualifies. -/
def chosenEta (arrivals : List (String × Option Int)) (buffer : Int) : Option Int :=
  match sortedEtas arrivals with
  | [] => none
  | e0 :: rest => some ((firstGe buffer (e0 :: rest)).getD e0)

/-- Home-page leave line (app.py 153-180). -/
def leaveLine (favorite : Option Int) (arrivals : List (String × Option Int))
    (buffer : Int) : String :=
  match favorite with
  | none => "Fav: (hold Select)"
  | some _ =>
    match chosenEta arrivals buffer with
    | none => "Fav: no ETA"
    | some c =>
      let leave_in := c - buffer
      if leave_in ≤ 0 then "Leave now"
      else "Leave in " ++ fmt02 leave_in ++ " min"

/-- The `_pad` helper of lcd_ui.py (line 184): `(s[:width] + " "*width)[:width]`
on the character list of the string. -/
def padLine (s : List Char) (width : Nat) : List Char :=
  (s.take width ++ List.replicate width ' ').take width

/-- Normalization performed by `_write_lines` (lcd_ui.py 187-189): all four rows
are passed through `_pad` with the display width of 20 columns. -/
def writeLinesNorm (lines : List (List Char)) : List (List Char) :=
  (List.range 4).map (fun i => padLine (lines.getD i []) 20)

/-- Python `str.rjust`: left-pad with spaces to the width, never truncating. -/
def rjustS (s : String) (width : Nat) : String :=
  if width ≤ s.length then s else String.mk (List.replicate (width - s.length) ' ') ++ s

/-- The right-hand ETA field of a station arrivals row (lcd_ui.py 390):
`("--m" if eta is None else f"..m").rjust(4)`. -/
def etaField (eta : Option Int) : String :=
  rjustS (match eta with | none => "--m" | some e => toString e ++ "m") 4

/-- The `fmt_signed2` helper of `render_home` (lcd_ui.py 300-318); the Python
float is abstracted as a rational and `round` as round-half-up, which does not
affect the placeholder branch. -/
def fmtSigned2 (v : Option ℚ) : String :=
  match v with
  | none => " --"
  | some x =>
    let n0 : Int := round x
    let n1 : Int := if n0 < -99 then -99 else n0
    let n : Int := if 99 < n1 then 99 else n1
    if n < 0 then "-" ++ fmt02 (-n) else " " ++ fmt02 n

/-- The precipitation-probability field of `render_home` (lcd_ui.py 343-345). -/
def popField (pop_pct : Option Int) : String :=
  match pop_pct with
  | none => "  --"
  | some p => rjustS (fmt02 p) 4

/-- One arrivals row of `render_station` (lcd_ui.py `fmt_line`, 383-391); the
argument is `none` when the row index is beyond the visible arrivals window. -/
def fmtLine (direction_label : String) (arr : Option (String × Option Int)) : List Char :=
  match arr with
  | none => padLine [] 16
  | some (route, eta) =>
    let r := ((if route = "" then "?" else route).trim.toList.take 3)
    padLine (r ++ ("> " ++ direction_label).toList) 16 ++ (etaField eta).toList

/-- A concrete environment used by witnesses and counterexamples. -/
def env0 : Env :=
  { arrivals_count := fun _ => 5, connect_ok := true,
    reload_station_count := 2, reload_favorite := none, reload_buffer := 10 }

/-- A concrete base state used by witnesses and counterexamples. -/
def baseState : AppState :=
  { state := UState.main, page := 0, station_count := 3, settings_sel := 0,
    wifi_supported := true, wifi_ssids := [], wifi_sel := 0, wifi_active := "",
    wifi_target := "", wifi_pass := List.replicate 16 ' ', wifi_cursor := 0,
    charset_idx := 0, wifi_scanning := false, wifi_scan_status := "",
    station_scroll := [], favorite_station_index := none, leave_buffer_min := 10 }

/-- Concrete state: MAIN on station page 1 with its scroll offset already 0. -/
def sStation0 : AppState :=
  { baseState with page := 1, station_count := 1, station_scroll := [(0, 0)] }

/-- Concrete state: Wi-Fi password entry reached from a two-network list. -/
def sPass0 : AppState :=
  { baseState with state := UState.wifiPassEntry, wifi_ssids := ["alpha", "beta"],
                   wifi_sel := 1, wifi_target := "beta" }

/-- Concrete state: Wi-Fi password entry with the cursor at 15 and a nonzero
charset index. -/
def sPass15 : AppState :=
  { baseState with state := UState.wifiPassEntry, wifi_cursor := 15, charset_idx := 5 }

/-- Concrete state: settings menu with the Wi-Fi entry selected. -/
def sSettings1 : AppState :=
  { baseState with state := UState.settingsRoot, settings_sel := 1 }

/-- Concrete state: the IP info page. -/
def sIp0 : AppState :=
  { baseState with state := UState.ipInfo }

/-- Concrete state: MAIN on the home page of a two-station configuration. -/
def sMainW : AppState :=
  { baseState with page := 0, station_count := 2 }

/-- Concrete state: the web-config page while on page 5 of six stations. -/
def sWebW : AppState :=
  { baseState with state := UState.webConfig, page := 5, station_count := 6 }

/-! ### Helper lemmas -/

/-- Reading a key back after a dict assignment. -/
theorem dictGet_dictSet (d : List (Int × Int)) (k v q : Int) :
    dictGet (dictSet d k v) q = if k = q then v else dictGet d q := by
  induction d with
  | nil => by_cases h : k = q <;> simp [dictSet, dictGet, h]
  | cons p rest ih =>
      obtain ⟨k0, v0⟩ := p
      by_cases h0 : k0 = k
      · subst h0
        by_cases h1 : k0 = q <;> simp [dictSet, dictGet, h1]
      · by_cases h1 : k0 = q
        · subst h1
          have : ¬ k = k0 := fun hh => h0 hh.symm
          simp [dictSet, dictGet, h0, this]
        · simp [dictSet, dictGet, h0, h1, ih]

/-- Truncating `_pad` on overlong input. -/
theorem padLine_of_ge (s : List Char) (w : Nat) (h : w ≤ s.length) :
    padLine s w = s.take w := by
  have h1 : (s.take w).length = w := by simp [h]
  rw [padLine, List.take_append_eq_append_take, List.take_take, Nat.min_self, h1,
      Nat.sub_self]
  simp

/-- Space-padding `_pad` on short input. -/
theorem padLine_of_le (s : List Char) (w : Nat) (h : s.length ≤ w) :
    padLine s w = s ++ List.replicate (w - s.length) ' ' := by
  rw [padLine, List.take_of_length_le h, List.take_append_eq_append_take,
      List.take_of_length_le h, List.take_replicate]
  congr 2
  omega

/-- Exact output width of `_pad`. -/
theorem padLine_length (s : List Char) (w : Nat) : (padLine s w).length = w := by
  simp [padLine]

/-! ### C10 -/

/-- C10: the `_pad` helper returns a string of length exactly `width` for every
input — truncating overlong input and space-padding short input — and
`_write_lines` normalizes all four rows through it, so every frame handed to
the display is exactly 4 lines of exactly 20 characters. -/
theorem pad_write_lines_spec :
    (∀ (s : List Char) (w : Nat), (padLine s w).length = w) ∧
    (∀ (s : List Char) (w : Nat), w ≤ s.length → padLine s w = s.take w) ∧
    (∀ (s : List Char) (w : Nat), s.length ≤ w →
      padLine s w = s ++ List.replicate (w - s.length) ' ') ∧
    (∀ lines : List (List Char),
      (writeLinesNorm lines).length = 4 ∧
      ∀ r ∈ writeLinesNorm lines, r.length = 20) := by
  refine ⟨padLine_length, padLine_of_ge, padLine_of_le, ?_⟩
  intro lines
  constructor
  · simp [writeLinesNorm]
  · intro r hr
    simp only [writeLinesNorm, List.mem_map] at hr
    obtain ⟨i, _, hi⟩ := hr
    rw [← hi]
    exact padLine_length _ 20

/-- Witness for C10 at concrete inputs. -/
theorem pad_write_lines_spec_witness :
    ((3 : Nat) ≤ ("hello".toList).length ∧ padLine "hello".toList 3 = "hel".toList) ∧
    (("ab".toList).length ≤ 4 ∧ padLine "ab".toList 4 = "ab  ".toList) := by
  refine ⟨⟨by decide, ?_⟩, ⟨by decide, ?_⟩⟩
  · exact (pad_write_lines_spec.2.1 "hello".toList 3 (by decide)).trans (by decide)
  · exact (pad_write_lines_spec.2.2.1 "ab".toList 4 (by decide)).trans (by decide)

/-! ### C9 -/

/-- C9: the page renderer never fails on a malformed collaborator snapshot: a
missing (null) ETA renders as the right-justified "--m" placeholder field, a
null temperature or feels-like value renders as " --", and a null
precipitation probability renders as "  --"; the arrivals row with a null ETA
is the padded row text followed by " --m". -/
theorem renderer_placeholder_spec :
    etaField none = " --m" ∧
    fmtSigned2 none = " --" ∧
    popField none = "  --" ∧
    (∀ (label route : String),
      fmtLine label (some (route, none)) =
        padLine (((if route = "" then "?" else route).trim.toList.take 3) ++
          ("> " ++ label).toList) 16 ++ " --m".toList) := by
  have he : etaField none = " --m" := by decide
  refine ⟨he, rfl, rfl, ?_⟩
  intro label route
  simp [fmtLine, he]

/-! ### C6 -/

/-- C6: main-page navigation wraps circularly at both ends: RIGHT at lastPage
yields page 0, LEFT at page 0 yields lastPage, and at interior pages RIGHT and
LEFT move by one. -/
theorem page_wraparound_spec (env : Env) (s : AppState) (h : s.state = UState.main) :
    (s.page = 0 → (step env Event.left s).1.page = s.lastPage) ∧
    (s.page = s.lastPage → (step env Event.right s).1.page = 0) ∧
    (s.page ≠ 0 → (step env Event.left s).1.page = s.page - 1) ∧
    (s.page ≠ s.lastPage → (step env Event.right s).1.page = s.page + 1) := by
  refine ⟨?_, ?_, ?_, ?_⟩ <;> intro hp <;>
    simp [step, h, stepMain, hp]

/-- Witness for C6: LEFT on the home page of a two-station configuration wraps
to the settings landing page 3. -/
theorem page_wraparound_spec_witness :
    sMainW.state = UState.main ∧ sMainW.page = 0 ∧
    (step env0 Event.left sMainW).1.page = sMainW.lastPage := by
  exact ⟨rfl, rfl, (page_wraparound_spec env0 sMainW rfl).1 rfl⟩

/-! ### C7 -/

/-- C7: reloading the station configuration from the web-config page clamps the
current page to the new lastPage: afterwards page = min(oldPage, n+1), where n
is the reloaded station count. -/
theorem reload_clamps_page_spec (env : Env) (s : AppState)
    (h : s.state = UState.webConfig) :
    (step env Event.select s).1.page = min s.page (env.reload_station_count + 1) ∧
    (step env Event.select s).1.station_count = env.reload_station_count := by
  simp [step, h, stepWeb]

/-- Witness for C7: reloading down to two stations while on page 5 lands on
page 3, not 0. -/
theorem reload_clamps_page_spec_witness :
    sWebW.state = UState.webConfig ∧
    (step env0 Event.select sWebW).1.page = min sWebW.page (env0.reload_station_count + 1) ∧
    min sWebW.page (env0.reload_station_count + 1) = 3 := by
  exact ⟨rfl, (reload_clamps_page_spec env0 sWebW rfl).1, by decide⟩

/-! ### C8 -/

/-- C8: the render scheduler renders on every iteration with changed=true; with
changed=false it renders exactly when the elapsed time since the last render
reaches the state-dependent minimum period — 0.12 s on a station page of Main
and 0.5 s elsewhere — except that a running background Wi-Fi scan on the Wi-Fi
list page forces periodic rendering regardless of the slow-cadence rule. -/
theorem render_scheduler_spec (st : UState) (page last_page : Int) (scan : Bool)
    (now_t last_render_t : ℚ) :
    (shouldRender true st page last_page scan now_t last_render_t = true) ∧
    (st = UState.wifiList → scan = true →
      shouldRender false st page last_page scan now_t last_render_t = true) ∧
    (¬ (st = UState.wifiList ∧ scan = true) →
      (shouldRender false st page last_page scan now_t last_render_t = true ↔
        now_t - last_render_t ≥ minRenderPeriod st page last_page)) ∧
    (st = UState.main → 0 < page → page < last_page →
      minRenderPeriod st page last_page = 12/100) ∧
    (¬ (st = UState.main ∧ 0 < page ∧ page < last_page) →
      minRenderPeriod st page last_page = 1/2) := by
  refine ⟨?_, ?_, ?_, ?_, ?_⟩
  · simp [shouldRender]
  · intro h1 h2
    simp [shouldRender, h1, h2]
  · intro h
    simp only [shouldRender, Bool.false_or]
    rw [if_neg (by simpa using h)]
    simp
  · intro h1 h2 h3
    simp [minRenderPeriod, h1, h2, h3]
  · intro h
    rw [minRenderPeriod, if_neg h]

/-- Witness for C8: on the IP page with no scan running, a 1-second gap renders
and the slow 0.5 s cadence applies. -/
theorem render_scheduler_spec_witness :
    (¬ (UState.ipInfo = UState.wifiList ∧ (false : Bool) = true)) ∧
    (shouldRender false UState.ipInfo 0 1 false 1 0 = true ↔
      (1 : ℚ) - 0 ≥ minRenderPeriod UState.ipInfo 0 1) ∧
    (¬ (UState.ipInfo = UState.main ∧ (0 : Int) < 0 ∧ (0 : Int) < 1)) ∧
    minRenderPeriod UState.ipInfo 0 1 = 1/2 := by
  refine ⟨by decide, ?_, by decide, ?_⟩
  · exact (render_scheduler_spec UState.ipInfo 0 1 false 1 0).2.2.1 (by decide)
  · exact (render_scheduler_spec UState.ipInfo 0 1 false 1 0).2.2.2.2 (by decide)

/-! ### C1 -/

/-- C1 as stated is refuted: UP on a station page whose scroll offset is
already 0 leaves the state bit-for-bit identical yet reports changed=true, so
changed=false is not returned exactly when the event caused no observable
effect. -/
theorem changed_flag_cex :
    (step env0 Event.up sStation0).1 = sStation0 ∧
    (step env0 Event.up sStation0).2 = true := by
  decide

/-- C1 amended: whenever apply reports changed=false the returned state is
identical to the input state — in particular every (state, event) pair with no
defined transition is a strict no-op returning changed=false — but the converse
fails: a boundary-clamped UP/DOWN (e.g. UP at scroll offset 0 on a station
page) leaves the state unchanged while reporting changed=true. -/
theorem changed_false_no_effect (env : Env) (k : Event) (s : AppState)
    (h : (step env k s).2 = false) : (step env k s).1 = s := by
  cases hst : s.state <;> cases k <;>
    simp_all [step, stepMain, stepSettings, stepIp, stepBufferEdit, stepAbout,
      stepWeb, stepWifiList, stepWifiPassEntry, startWifiScan] <;>
    split_ifs at h ⊢ <;> simp_all

/-- Witness for C1's amended theorem: RIGHT on the IP page reports
changed=false and leaves the state identical. -/
theorem changed_false_no_effect_witness :
    (step env0 Event.right sIp0).2 = false ∧
    (step env0 Event.right sIp0).1 = sIp0 := by
  exact ⟨by decide, changed_false_no_effect env0 Event.right sIp0 (by decide)⟩

/-! ### C3 -/

/-- C3 as stated is refuted: returning to the Wi-Fi list via LEFT from password
entry keeps the stale network list and nonzero selection and starts no scan. -/
theorem wifilist_entry_reset_cex :
    (step env0 Event.left sPass0).1.state = UState.wifiList ∧
    (step env0 Event.left sPass0).1.wifi_ssids = ["alpha", "beta"] ∧
    (step env0 Event.left sPass0).1.wifi_sel = 1 ∧
    (step env0 Event.left sPass0).1.wifi_scanning = false := by
  decide

/-- C3 amended: entering WifiList by SELECT from the settings menu resets the
Wi-Fi session (network list cleared, selection 0, status "Scanning...", scan
kicked off when nmcli is present and no scan runs); but returning to WifiList
via LEFT from WifiPasswordEntry preserves the list, selection and scanning flag
and starts no scan, and returning via SELECT (a connect attempt) kicks off a
rescan without synchronously clearing the list or selection. -/
theorem wifilist_entry_reset (env : Env) (s : AppState) :
    (s.state = UState.settingsRoot → s.settings_sel = 1 → s.wifi_supported = true →
      s.wifi_scanning = false →
      (step env Event.select s).1.state = UState.wifiList ∧
      (step env Event.select s).1.wifi_ssids = [] ∧
      (step env Event.select s).1.wifi_sel = 0 ∧
      (step env Event.select s).1.wifi_scanning = true ∧
      (step env Event.select s).1.wifi_scan_status = "Scanning...") ∧
    (s.state = UState.wifiPassEntry →
      (step env Event.left s).1.state = UState.wifiList ∧
      (step env Event.left s).1.wifi_ssids = s.wifi_ssids ∧
      (step env Event.left s).1.wifi_sel = s.wifi_sel ∧
      (step env Event.left s).1.wifi_scanning = s.wifi_scanning) ∧
    (s.state = UState.wifiPassEntry → s.wifi_supported = true → s.wifi_scanning = false →
      (step env Event.select s).1.state = UState.wifiList ∧
      (step env Event.select s).1.wifi_scanning = true ∧
      (step env Event.select s).1.wifi_sel = s.wifi_sel ∧
      (step env Event.select s).1.wifi_ssids = s.wifi_ssids) := by
  refine ⟨?_, ?_, ?_⟩
  · intro h1 h2 h3 h4
    simp [step, h1, h2, h3, h4, stepSettings, startWifiScan]
  · intro h1
    simp [step, h1, stepWifiPassEntry]
  · intro h1 h2 h3
    simp [step, h1, h2, h3, stepWifiPassEntry, startWifiScan]

/-- Witness for C3's amended theorem at the concrete settings-menu state. -/
theorem wifilist_entry_reset_witness :
    (sSettings1.state = UState.settingsRoot ∧ sSettings1.settings_sel = 1 ∧
     sSettings1.wifi_supported = true ∧ sSettings1.wifi_scanning = false) ∧
    (step env0 Event.select sSettings1).1.wifi_sel = 0 ∧
    (step env0 Event.select sSettings1).1.wifi_ssids = [] := by
  have h := (wifilist_entry_reset env0 sSettings1).1 rfl rfl rfl rfl
  exact ⟨⟨rfl, rfl, rfl, rfl⟩, h.2.2.1, h.2.1⟩

/-! ### C4 -/

/-- The configured character set has 86 entries. -/
theorem charsetLen_eq : charsetLen = 86 := by decide

/-- Iterating the UP cycle adds the iteration count modulo the charset length. -/
theorem cycleUp_iterate (i : Int) (h0 : 0 ≤ i) (h1 : i < charsetLen) (n : Nat) :
    cycleUp^[n] i = (i + n) % charsetLen := by
  induction n with
  | zero => simp [Int.emod_eq_of_lt h0 h1]
  | succ m ih =>
      rw [Function.iterate_succ_apply', ih, cycleUp, charsetLen_eq]
      rw [charsetLen_eq] at h1
      push_cast
      omega

/-- C4 as stated is refuted: RIGHT with the cursor already at 15 is not a
no-op — it resets the charset cycling index (observable through the next
UP/DOWN press) and reports changed=true, so the resulting state differs. -/
theorem password_cursor_cex :
    sPass15.wifi_cursor = 15 ∧
    (step env0 Event.right sPass15).1 ≠ sPass15 ∧
    (step env0 Event.right sPass15).1.charset_idx = 0 ∧
    sPass15.charset_idx = 5 ∧
    (step env0 Event.right sPass15).2 = true := by
  decide

/-- C4 amended: the password cursor always stays within [0,15]; RIGHT at cursor
15 leaves the cursor and password buffer unchanged but resets the charset index
to 0 and reports changed=true; UP and DOWN move the charset index by ±1 modulo
the 86-character set and write the indexed character at the cursor, so cycling
wraps in both directions, UP and DOWN are mutually inverse, and a cursor's
cycle repeats only after one full pass through the character set. -/
theorem password_entry_spec (env : Env) (s : AppState) :
    (∀ k : Event, 0 ≤ s.wifi_cursor → s.wifi_cursor ≤ 15 →
      0 ≤ (step env k s).1.wifi_cursor ∧ (step env k s).1.wifi_cursor ≤ 15) ∧
    (s.state = UState.wifiPassEntry → s.wifi_cursor = 15 →
      (step env Event.right s).1.wifi_cursor = 15 ∧
      (step env Event.right s).1.wifi_pass = s.wifi_pass ∧
      (step env Event.right s).1.charset_idx = 0 ∧
      (step env Event.right s).2 = true) ∧
    (s.state = UState.wifiPassEntry →
      (step env Event.up s).1.charset_idx = (s.charset_idx + 1) % charsetLen ∧
      (step env Event.down s).1.charset_idx = (s.charset_idx - 1) % charsetLen ∧
      (step env Event.up s).1.wifi_pass =
        s.wifi_pass.set s.wifi_cursor.toNat
          (charset.getD ((s.charset_idx + 1) % charsetLen).toNat ' ') ∧
      (step env Event.down s).1.wifi_pass =
        s.wifi_pass.set s.wifi_cursor.toNat
          (charset.getD ((s.charset_idx - 1) % charsetLen).toNat ' ')) ∧
    (∀ i : Int, 0 ≤ i → i < charsetLen →
      cycleDown (cycleUp i) = i ∧ cycleUp (cycleDown i) = i ∧
      cycleUp^[charset.length] i = i ∧
      ∀ j l : Nat, j < charset.length → l < charset.length →
        cycleUp^[j] i = cycleUp^[l] i → j = l) := by
  refine ⟨?_, ?_, ?_, ?_⟩
  · intro k h0 h1
    cases hst : s.state <;> cases k <;>
      simp [step, hst, stepMain, stepSettings, stepIp, stepBufferEdit, stepAbout,
        stepWeb, stepWifiList, stepWifiPassEntry, startWifiScan] <;>
      (try split_ifs) <;> (try simp) <;> omega
  · intro h1 h2
    simp [step, h1, h2, stepWifiPassEntry]
  · intro h1
    simp [step, h1, stepWifiPassEntry, cycleUp, cycleDown]
  · intro i h0 h1
    have h86 : charsetLen = 86 := charsetLen_eq
    have hlen : charset.length = 86 := by decide
    refine ⟨?_, ?_, ?_, ?_⟩
    · simp only [cycleUp, cycleDown, h86]
      rw [h86] at h1
      omega
    · simp only [cycleUp, cycleDown, h86]
      rw [h86] at h1
      omega
    · rw [cycleUp_iterate i h0 h1, hlen, h86]
      rw [h86] at h1
      push_cast
      omega
    · intro j l hj hl heq
      rw [cycleUp_iterate i h0 h1, cycleUp_iterate i h0 h1, h86] at heq
      rw [hlen] at hj hl
      rw [h86] at h1
      omega
  
/-- Witness for C4's amended theorem at the concrete cursor-15 state. -/
theorem password_entry_spec_witness :
    (sPass15.state = UState.wifiPassEntry ∧ sPass15.wifi_cursor = 15) ∧
    ((step env0 Event.right sPass15).1.wifi_cursor = 15 ∧
     (step env0 Event.right sPass15).1.wifi_pass = sPass15.wifi_pass ∧
     (step env0 Event.right sPass15).1.charset_idx = 0 ∧
     (step env0 Event.right sPass15).2 = true) ∧
    ((0 : Int) ≤ 3 ∧ (3 : Int) < charsetLen ∧
     cycleDown (cycleUp 3) = 3 ∧ cycleUp (cycleDown 3) = 3) := by
  refine ⟨⟨rfl, rfl⟩, (password_entry_spec env0 sPass15).2.1 rfl rfl, ?_⟩
  have h := (password_entry_spec env0 sPass15).2.2.2 3 (by decide) (by decide)
  exact ⟨by decide, by decide, h.1, h.2.1⟩

/-! ### C5 -/

/-- The settings dispatcher never touches the scroll map. -/
theorem stepSettings_scroll (k : Event) (s : AppState) :
    (stepSettings k s).1.station_scroll = s.station_scroll := by
  cases k <;> simp [stepSettings, startWifiScan] <;> (try split_ifs) <;> (try rfl)

/-- The IP-page dispatcher never touches the scroll map. -/
theorem stepIp_scroll (k : Event) (s : AppState) :
    (stepIp k s).1.station_scroll = s.station_scroll := by
  cases k <;> rfl

/-- The leave-buffer dispatcher never touches the scroll map. -/
theorem stepBufferEdit_scroll (k : Event) (s : AppState) :
    (stepBufferEdit k s).1.station_scroll = s.station_scroll := by
  cases k <;> rfl

/-- The about-page dispatcher never touches the scroll map. -/
theorem stepAbout_scroll (k : Event) (s : AppState) :
    (stepAbout k s).1.station_scroll = s.station_scroll := by
  cases k <;> rfl

/-- The web-config dispatcher never touches the scroll map. -/
theorem stepWeb_scroll (env : Env) (k : Event) (s : AppState) :
    (stepWeb env k s).1.station_scroll = s.station_scroll := by
  cases k <;> rfl

/-- The Wi-Fi list dispatcher never touches the scroll map. -/
theorem stepWifiList_scroll (k : Event) (s : AppState) :
    (stepWifiList k s).1.station_scroll = s.station_scroll := by
  cases k <;> simp [stepWifiList, startWifiScan] <;> (try split_ifs) <;> rfl

/-- The password-entry dispatcher never touches the scroll map. -/
theorem stepWifiPassEntry_scroll (env : Env) (k : Event) (s : AppState) :
    (stepWifiPassEntry env k s).1.station_scroll = s.station_scroll := by
  cases k <;> simp [stepWifiPassEntry, startWifiScan] <;> (try split_ifs) <;> (try rfl)

/-- One MAIN-state event preserves the scroll-offset invariant. -/
theorem scrollInv_stepMain (env : Env) (k : Event) (s : AppState) (h : scrollInv env s) :
    scrollInv env (stepMain env k s).1 := by
  cases k with
  | up =>
      simp only [stepMain]
      split_ifs with hc
      · intro idx
        have hidx := h idx
        have hkey := h (s.page - 1)
        simp only [dictGet_dictSet]
        split_ifs with he
        · subst he
          omega
        · exact hidx
      · exact h
  | down =>
      simp only [stepMain]
      split_ifs with hc
      · intro idx
        have hidx := h idx
        have hkey := h (s.page - 1)
        simp only [dictGet_dictSet]
        split_ifs with he
        · subst he
          omega
        · exact hidx
      · exact h
  | left => exact h
  | right => exact h
  | select =>
      simp only [stepMain]
      split_ifs <;> exact h
  | selectLong =>
      simp only [stepMain]
      split_ifs <;> exact h
  | noEvent => exact h

/-- Any single event preserves the scroll-offset invariant. -/
theorem scrollInv_step (env : Env) (k : Event) (s : AppState) (h : scrollInv env s) :
    scrollInv env (step env k s).1 := by
  cases hst : s.state <;> simp only [step, hst]
  case main => exact scrollInv_stepMain env k s h
  case settingsRoot => intro idx; rw [stepSettings_scroll]; exact h idx
  case ipInfo => intro idx; rw [stepIp_scroll]; exact h idx
  case wifiList => intro idx; rw [stepWifiList_scroll]; exact h idx
  case wifiPassEntry => intro idx; rw [stepWifiPassEntry_scroll]; exact h idx
  case webConfig => intro idx; rw [stepWeb_scroll]; exact h idx
  case bufferEdit => intro idx; rw [stepBufferEdit_scroll]; exact h idx
  case about => intro idx; rw [stepAbout_scroll]; exact h idx

/-- Any event sequence preserves the scroll-offset invariant. -/
theorem scrollInv_runEvents (env : Env) (evs : List Event) (s : AppState)
    (h : scrollInv env s) : scrollInv env (runEvents env evs s) := by
  induction evs generalizing s with
  | nil => exact h
  | cons e rest ih =>
      rw [runEvents, List.foldl_cons]
      exact ih _ (scrollInv_step env e s h)

/-- C5: for every station and arrivals count, the per-station scroll offset
stays within [0, max 0 (arrivalsCount−2)] after any single event and after any
sequence of events (UP/DOWN included), and the render-time clamp restores that
range whenever the arrivals data has refreshed underneath a stored offset. -/
theorem scroll_offset_spec (env : Env) (s : AppState) (hinv : scrollInv env s) :
    (∀ k : Event, scrollInv env (step env k s).1) ∧
    (∀ evs : List Event, scrollInv env (runEvents env evs s)) ∧
    (∀ n off : Int, 0 ≤ off →
      0 ≤ clampScroll n off ∧ clampScroll n off ≤ max 0 (n - 2)) := by
  refine ⟨fun k => scrollInv_step env k s hinv,
          fun evs => scrollInv_runEvents env evs s hinv, ?_⟩
  intro n off h0
  simp only [clampScroll]
  split_ifs <;> omega

/-- Witness for C5: the base state satisfies the invariant and it is preserved
across a concrete DOWN, DOWN, UP sequence on a station page. -/
theorem scroll_offset_spec_witness :
    scrollInv env0 sStation0 ∧
    scrollInv env0 (runEvents env0 [Event.down, Event.down, Event.up] sStation0) := by
  have hb : scrollInv env0 sStation0 := by
    intro idx
    constructor
    · simp only [sStation0, baseState]
      rw [show dictGet [((0 : Int), (0 : Int))] idx = if (0 : Int) = idx then 0 else 0 by
            simp [dictGet]]
      split_ifs <;> omega
    · simp only [sStation0, baseState, env0]
      rw [show dictGet [((0 : Int), (0 : Int))] idx = if (0 : Int) = idx then 0 else 0 by
            simp [dictGet]]
      split_ifs <;> omega
  exact ⟨hb, (scroll_offset_spec env0 sStation0 hb).2.1 [Event.down, Event.down, Event.up]⟩

/-! ### C2 -/

/-- The linear scan finds nothing exactly when every element is below b. -/
theorem firstGe_none (b : Int) (l : List Int) :
    firstGe b l = none ↔ ∀ x ∈ l, x < b := by
  induction l with
  | nil => simp [firstGe]
  | cons y ys ih =>
      by_cases h : b ≤ y
      · simp only [firstGe, if_pos h]
        apply iff_of_false (by simp)
        intro hall
        exact absurd h (not_le.mpr (hall y (by simp)))
      · simp only [firstGe, if_neg h, ih]
        constructor
        · intro hall x hx
          rcases List.mem_cons.mp hx with rfl | hx'
          · exact not_le.mp h
          · exact hall x hx'
        · intro hall x hx
          exact hall x (by simp [hx])

/-- A hit of the linear scan is a member that is ≥ b. -/
theorem firstGe_some (b : Int) (l : List Int) (x : Int) (h : firstGe b l = some x) :
    x ∈ l ∧ b ≤ x := by
  induction l with
  | nil => simp [firstGe] at h
  | cons y ys ih =>
      by_cases hy : b ≤ y
      · simp only [firstGe, if_pos hy, Option.some.injEq] at h
        subst h
        exact ⟨by simp, hy⟩
      · simp only [firstGe, if_neg hy] at h
        obtain ⟨h1, h2⟩ := ih h
        exact ⟨by simp [h1], h2⟩

/-- On a sorted list, the linear scan's hit is minimal among elements ≥ b. -/
theorem firstGe_min (b : Int) :
    ∀ l : List Int, l.Sorted (fun a c => a ≤ c) → ∀ x, firstGe b l = some x →
      ∀ y ∈ l, b ≤ y → x ≤ y := by
  intro l
  induction l with
  | nil =>
      intro _ x h
      simp [firstGe] at h
  | cons z zs ih =>
      intro hs x h y hy hby
      rw [List.sorted_cons] at hs
      by_cases hz : b ≤ z
      · simp only [firstGe, if_pos hz, Option.some.injEq] at h
        subst h
        rcases List.mem_cons.mp hy with rfl | hy'
        · exact le_refl y
        · exact hs.1 y hy'
      · simp only [firstGe, if_neg hz] at h
        rcases List.mem_cons.mp hy with rfl | hy'
        · exact absurd hby hz
        · exact ih hs.2 x h y hy' hby

/-- The head of a sorted list is a lower bound of the list. -/
theorem sorted_head_min (l : List Int) (hs : l.Sorted (fun a c => a ≤ c)) (x : Int)
    (hx : l.head? = some x) : ∀ y ∈ l, x ≤ y := by
  cases l with
  | nil => simp at hx
  | cons z zs =>
      simp only [List.head?_cons, Option.some.injEq] at hx
      subst hx
      rw [List.sorted_cons] at hs
      intro y hy
      rcases List.mem_cons.mp hy with rfl | hy'
      · exact le_refl y
      · exact hs.1 y hy'

/-- The sorted ETA list is sorted. -/
theorem sortedEtas_sorted (arrivals : List (String × Option Int)) :
    (sortedEtas arrivals).Sorted (fun a c => a ≤ c) :=
  List.sorted_insertionSort _ _

/-- Membership transfers between the sorted ETA list and the raw ETA list. -/
theorem mem_sortedEtas (arrivals : List (String × Option Int)) (x : Int) :
    x ∈ sortedEtas arrivals ↔ x ∈ arrivals.filterMap Prod.snd :=
  (List.perm_insertionSort _ _).mem_iff

/-- C2: the home-page leave-by computation chooses the smallest ETA ≥ buffer,
falling back to the smallest ETA overall when none qualifies; it emits
"Leave now" when chosen − buffer ≤ 0 and "Leave in NN min" otherwise; with no
favorite configured or no ETAs it emits a placeholder line; and on the spec's
concrete examples — ETAs [3,9,20] with buffer 10, and [3,5] with buffer 10 —
it yields "Leave in 10 min" and "Leave now" respectively. -/
theorem leave_by_spec (arrivals : List (String × Option Int)) (b : Int) (i : Int) :
    (leaveLine none arrivals b = "Fav: (hold Select)") ∧
    (arrivals.filterMap Prod.snd = [] → leaveLine (some i) arrivals b = "Fav: no ETA") ∧
    ((∃ e ∈ arrivals.filterMap Prod.snd, b ≤ e) →
      ∃ c, chosenEta arrivals b = some c ∧ c ∈ arrivals.filterMap Prod.snd ∧ b ≤ c ∧
        ∀ e ∈ arrivals.filterMap Prod.snd, b ≤ e → c ≤ e) ∧
    (arrivals.filterMap Prod.snd ≠ [] → (∀ e ∈ arrivals.filterMap Prod.snd, e < b) →
      ∃ c, chosenEta arrivals b = some c ∧ c ∈ arrivals.filterMap Prod.snd ∧
        ∀ e ∈ arrivals.filterMap Prod.snd, c ≤ e) ∧
    (∀ c, chosenEta arrivals b = some c →
      (c - b ≤ 0 → leaveLine (some i) arrivals b = "Leave now") ∧
      (0 < c - b → leaveLine (some i) arrivals b = "Leave in " ++ fmt02 (c - b) ++ " min")) ∧
    (leaveLine (some 0) [("A", some 3), ("B", some 9), ("C", some 20)] 10 = "Leave in 10 min") ∧
    (leaveLine (some 0) [("A", some 3), ("B", some 5)] 10 = "Leave now") := by
  refine ⟨rfl, ?_, ?_, ?_, ?_, by decide, by decide⟩
  · intro h
    simp [leaveLine, chosenEta, sortedEtas, h, List.insertionSort]
  · rintro ⟨e, he, hbe⟩
    obtain ⟨eS, heS⟩ : ∃ x, firstGe b (sortedEtas arrivals) = some x := by
      cases hfg : firstGe b (sortedEtas arrivals) with
      | some x => exact ⟨x, rfl⟩
      | none =>
          exfalso
          have := (firstGe_none b (sortedEtas arrivals)).mp hfg e
            ((mem_sortedEtas arrivals e).mpr he)
          omega
    have hchos : chosenEta arrivals b = some eS := by
      cases hS : sortedEtas arrivals with
      | nil =>
          rw [hS] at heS
          simp [firstGe] at heS
      | cons e0 rest =>
          rw [hS] at heS
          simp [chosenEta, hS, heS]
    obtain ⟨hmemS, hbeS⟩ := firstGe_some b (sortedEtas arrivals) eS heS
    refine ⟨eS, hchos, (mem_sortedEtas arrivals eS).mp hmemS, hbeS, ?_⟩
    intro x hx hbx
    exact firstGe_min b (sortedEtas arrivals) (sortedEtas_sorted arrivals) eS heS x
      ((mem_sortedEtas arrivals x).mpr hx) hbx
  · intro hne hall
    have hlen : (sortedEtas arrivals).length = (arrivals.filterMap Prod.snd).length :=
      (List.perm_insertionSort _ _).length_eq
    cases hS : sortedEtas arrivals with
    | nil =>
        exfalso
        rw [hS] at hlen
        cases hfm : arrivals.filterMap Prod.snd with
        | nil => exact hne hfm
        | cons a as =>
            rw [hfm] at hlen
            simp at hlen
    | cons e0 rest =>
        have hfg : firstGe b (e0 :: rest) = none := by
          rw [← hS]
          exact (firstGe_none b _).mpr
            (fun x hx => hall x ((mem_sortedEtas arrivals x).mp hx))
        have hchos : chosenEta arrivals b = some e0 := by
          simp [chosenEta, hS, hfg]
        have he0 : e0 ∈ sortedEtas arrivals := by
          rw [hS]
          simp
        refine ⟨e0, hchos, (mem_sortedEtas arrivals e0).mp he0, ?_⟩
        intro x hx
        have hmin := sorted_head_min (sortedEtas arrivals) (sortedEtas_sorted arrivals) e0
          (by rw [hS]; rfl)
        exact hmin x ((mem_sortedEtas arrivals x).mpr hx)
  · intro c hc
    constructor
    · intro hcb
      simp [leaveLine, hc, hcb]
    · intro hcb
      have hn : ¬ (c - b ≤ 0) := by omega
      simp [leaveLine, hc, hn]

/-- Witness for C2: on the concrete ETAs [3,5] with buffer 10 the chosen ETA is
3 and the line is "Leave now". -/
theorem leave_by_spec_witness :
    chosenEta [("A", some 3), ("B", some 5)] 10 = some 3 ∧
    (3 : Int) - 10 ≤ 0 ∧
    leaveLine (some 0) [("A", some 3), ("B", some 5)] 10 = "Leave now" := by
  refine ⟨by decide, by decide, ?_⟩
  exact ((leave_by_spec [("A", some 3), ("B", some 5)] 10 0).2.2.2.2.1 3
    (by decide)).1 (by decide)
